import Mathlib

/-!
Verification development for `painel_adb.py`, a small web control panel that
drives an Android-TV device through the external `adb` command-line tool.

The embedding translates the Python source into Lean:

* `adbCmd` embeds `_adb_cmd` (subprocess invocation with timeout/not-found
  sentinels and permissive byte decoding);
* `PanelState`, `initState`, `setIp` embed the module-level globals `TV_IP`
  and `ADB_DEVICE` and the `/set_ip` handler;
* `keyEvent` embeds the `/key` handler, `connectCmd` the `/connect` handler's
  command line;
* `reconnectCycle` / `reconnectRun` embed one iteration / a finite prefix of
  the infinite `adb_autoreconnect_loop`;
* `screencapStep` / `screencapRun` embed one iteration / a finite prefix of
  the infinite `screencap_generator`.

The nondeterministic environment (what `subprocess.run` does for a given
command) is an explicit oracle `List String → ProcOutcome`; time is modelled
by recording `sleep` events in milliseconds (the source sleeps 0.4 s, 0.18 s,
2 s and 5 s).
-/

/-- Outcome of one `subprocess.run` call, as seen by `_adb_cmd`'s
`try`/`except`: the child process completed (raw stdout/stderr bytes and its
return code), the call raised `subprocess.TimeoutExpired`, or it raised
`FileNotFoundError` (the `adb` executable is missing).  Bytes are `Nat`s
(each < 256 for real inputs). -/
inductive ProcOutcome where
  | completed (stdout stderr : List Nat) (returncode : Int)
  | timedOut
  | notFound
deriving DecidableEq, Repr

/-- An invocation oracle that raises `subprocess.TimeoutExpired` on every
call — the "Invoker that always times out" of the spec's test scenario. -/
def timeoutOracle : List String → ProcOutcome := fun _ => ProcOutcome.timedOut

/-- Is `b` a UTF-8 continuation byte (`0x80..0xBF`)? -/
def isCont (b : Nat) : Bool := decide (0x80 ≤ b ∧ b ≤ 0xBF)

/-- Tokeniser for CPython's UTF-8 decoder: scans a byte list into a list of
tokens, one per decoded code point (`some c`) or per invalid sub-sequence
(`none`).  Error spans follow CPython (maximal-subpart): an invalid start
byte is a 1-byte span; a sequence with an invalid or missing continuation
byte is a span covering the bytes consumed so far, and scanning resumes at
the offending byte.  Surrogate ranges (lead `0xED` with continuation above
`0x9F`) and values above `U+10FFFF` (lead `0xF4` with continuation above
`0x8F`) are invalid, as are overlong encodings (start bytes `0xC0`/`0xC1`,
lead `0xE0`/`0xF0` with too-small first continuation).

`fuel` bounds the recursion; each step consumes at least one input byte, so
`fuel := input length` (see `utf8Spans`) always suffices. -/
def utf8SpansAux : Nat → List Nat → List (Option Char)
  | 0, _ => []
  | _, [] => []
  | fuel + 1, b :: rest =>
    if b < 0x80 then some (Char.ofNat b) :: utf8SpansAux fuel rest
    else if b < 0xC2 then none :: utf8SpansAux fuel rest
    else if b < 0xE0 then
      match rest with
      | [] => [none]
      | c1 :: rest1 =>
        if isCont c1 then
          some (Char.ofNat ((b - 0xC0) * 64 + (c1 - 0x80))) :: utf8SpansAux fuel rest1
        else none :: utf8SpansAux fuel rest
    else if b < 0xF0 then
      match rest with
      | [] => [none]
      | c1 :: rest1 =>
        if decide ((if b = 0xE0 then 0xA0 else 0x80) ≤ c1 ∧
                   c1 ≤ (if b = 0xED then 0x9F else 0xBF)) then
          match rest1 with
          | [] => [none]
          | c2 :: rest2 =>
            if isCont c2 then
              some (Char.ofNat ((b - 0xE0) * 4096 + (c1 - 0x80) * 64 + (c2 - 0x80))) ::
                utf8SpansAux fuel rest2
            else none :: utf8SpansAux fuel rest1
        else none :: utf8SpansAux fuel rest
    else if b < 0xF5 then
      match rest with
      | [] => [none]
      | c1 :: rest1 =>
        if decide ((if b = 0xF0 then 0x90 else 0x80) ≤ c1 ∧
                   c1 ≤ (if b = 0xF4 then 0x8F else 0xBF)) then
          match rest1 with
          | [] => [none]
          | c2 :: rest2 =>
            if isCont c2 then
              match rest2 with
              | [] => [none]
              | c3 :: rest3 =>
                if isCont c3 then
                  some (Char.ofNat
                      ((b - 0xF0) * 262144 + (c1 - 0x80) * 4096 + (c2 - 0x80) * 64 +
                        (c3 - 0x80))) :: utf8SpansAux fuel rest3
                else none :: utf8SpansAux fuel rest2
            else none :: utf8SpansAux fuel rest1
        else none :: utf8SpansAux fuel rest
    else none :: utf8SpansAux fuel rest

/-- Token stream of CPython's UTF-8 decoder on `bs` (see `utf8SpansAux`). -/
def utf8Spans (bs : List Nat) : List (Option Char) := utf8SpansAux bs.length bs

/-- The Unicode replacement character `U+FFFD`. -/
def replChar : Char := Char.ofNat 0xFFFD

/-- `bytes.decode(errors="ignore")`: invalid sub-sequences are dropped.
This is the decoding `_adb_cmd` actually performs. -/
def utf8DecodeIgnore (bs : List Nat) : List Char :=
  (utf8Spans bs).filterMap id

/-- `bytes.decode(errors="replace")`: one `U+FFFD` per invalid sub-sequence.
Reference definition following the spec's words ("invalid byte sequences are
replaced"), for comparison against the source's `errors="ignore"`. -/
def utf8DecodeReplace (bs : List Nat) : List Char :=
  (utf8Spans bs).map (fun o => o.getD replChar)

/-- `bytes.decode()` with strict error handling: `none` when the bytes are
not valid UTF-8.  Reference definition used to state what "a decoding
error" would be and what decoding of valid input must produce. -/
def utf8DecodeStrict (bs : List Nat) : Option (List Char) :=
  if (utf8Spans bs).all Option.isSome then some ((utf8Spans bs).filterMap id)
  else none

/-- UTF-8 encoding of one character (`str.encode()` per code point). -/
def utf8EncodeChar (c : Char) : List Nat :=
  let n := c.toNat
  if n < 0x80 then [n]
  else if n < 0x800 then [0xC0 + n / 64, 0x80 + n % 64]
  else if n < 0x10000 then [0xE0 + n / 4096, 0x80 + n / 64 % 64, 0x80 + n % 64]
  else [0xF0 + n / 262144, 0x80 + n / 4096 % 64, 0x80 + n / 64 % 64, 0x80 + n % 64]

/-- `str.encode()`: UTF-8 encoding of a string. -/
def utf8Encode (s : String) : List Nat :=
  (s.toList.map utf8EncodeChar).flatten

/-- Result triple of `_adb_cmd`: `(out, err, returncode)` as returned to
every caller in the source. -/
structure CmdResult where
  out : String
  err : String
  code : Int
deriving DecidableEq, Repr

/-- `_adb_cmd(args)` prepends the executable name: `cmd = ["adb"] + args`. -/
def adbCmdLine (args : List String) : List String := "adb" :: args

/-- Embedding of `_adb_cmd` (painel_adb.py:38-49): given what the spawned
process did, return `(stdout_decoded, stderr_decoded, returncode)`.  On
normal completion stdout/stderr are decoded with `errors="ignore"`; on
`TimeoutExpired` it returns `("", "timeout", 124)`; on `FileNotFoundError`
it returns `("", "adb-not-found", 127)`.  The function is total: no outcome
propagates an exception to the caller. -/
def adbCmd : ProcOutcome → CmdResult
  | .completed o e rc =>
      ⟨String.mk (utf8DecodeIgnore o), String.mk (utf8DecodeIgnore e), rc⟩
  | .timedOut => ⟨"", "timeout", 124⟩
  | .notFound => ⟨"", "adb-not-found", 127⟩

/-- Python's substring operator `pat in hay` on strings, on the underlying
character lists: does `pat` occur as a contiguous run in the list? -/
def listContainsAux (pat : List Char) : List Char → Bool
  | [] => pat.isEmpty
  | c :: t => pat.isPrefixOf (c :: t) || listContainsAux pat t

/-- Python's `needle in hay` for strings (substring test). -/
def strIn (needle hay : String) : Bool :=
  listContainsAux needle.toList hay.toList

/-- The two module-level globals of the source: `TV_IP` (the host) and
`ADB_DEVICE` (the device selector handed to `adb -s`). -/
structure PanelState where
  tv_ip : String
  adb_device : String
deriving DecidableEq, Repr

/-- Module initialisation (painel_adb.py:34-35):
`TV_IP = os.environ.get("TV_IP", "10.0.110.253")`,
`ADB_DEVICE = f"{TV_IP}:5555"`.  `env` is the `TV_IP` environment
variable's value, if set. -/
def initState (env : Option String) : PanelState :=
  let ip := env.getD "10.0.110.253"
  { tv_ip := ip, adb_device := ip ++ ":5555" }

/-- An HTTP-handler result: a normal (2xx) value, or a raised
`HTTPException(status, detail)`. -/
inductive Resp (α : Type) where
  | ok (v : α)
  | httpError (status : Nat) (detail : String)
deriving DecidableEq, Repr

/-- Embedding of the `/set_ip` handler (painel_adb.py:236-246).  `ip` is
`body.get("ip")`: `none` when the field is missing.  `if not ip:` rejects a
missing or empty value with `HTTPException(400, "ip required")`, leaving the
globals untouched; otherwise both globals are replaced:
`TV_IP = ip; ADB_DEVICE = f"{TV_IP}:5555"`, and the handler returns the
`(tv_ip, adb_device)` pair.  (Non-string JSON values for `ip` are outside
this model.) -/
def setIp (st : PanelState) (ip : Option String) : PanelState × Resp (String × String) :=
  match ip with
  | none => (st, .httpError 400 "ip required")
  | some s =>
    if s = "" then (st, .httpError 400 "ip required")
    else ({ tv_ip := s, adb_device := s ++ ":5555" }, .ok (s, s ++ ":5555"))

/-- The command line issued by the `/connect` handler (painel_adb.py:252):
`_adb_cmd(["connect", ADB_DEVICE])`. -/
def connectCmd (st : PanelState) : List String :=
  adbCmdLine ["connect", st.adb_device]

/-- JSON body values relevant to the `/key` handler (floats are outside the
model; the handler's behaviour on the modelled values is decided by
`pyInt`). -/
inductive PyVal where
  | vNone
  | vInt (i : Int)
  | vStr (s : String)
  | vBool (b : Bool)
deriving DecidableEq, Repr

/-- Characters Python's `int(str)` strips from both ends of its argument
(ASCII whitespace; `Char.ofNat 11` / `12` are `\v` / `\f`). -/
def isPyWs (c : Char) : Bool :=
  c = ' ' || c = '\t' || c = '\n' || c = '\r' || c = Char.ofNat 11 || c = Char.ofNat 12

/-- Digit-run tail of Python's integer-literal parsing: after a leading
digit (already accumulated in `acc`), consume further digits, allowing a
single underscore only between two digits. -/
def pyIntDigits : List Char → Nat → Option Nat
  | [], acc => some acc
  | c :: rest, acc =>
    if c.isDigit then pyIntDigits rest (acc * 10 + (c.toNat - 48))
    else if c = '_' then
      match rest with
      | [] => none
      | d :: rest2 =>
        if d.isDigit then pyIntDigits rest2 (acc * 10 + (d.toNat - 48)) else none
    else none

/-- Unsigned part of Python's `int(str)`: at least one leading ASCII digit,
then `pyIntDigits`. -/
def pyIntStart : List Nat → List Char → Option Nat
  | _, [] => none
  | _, c :: rest => if c.isDigit then pyIntDigits rest (c.toNat - 48) else none

/-- Python's `int(s)` on a string: strip ASCII whitespace, allow one
optional sign, then a digit run (with underscores between digits); `none`
when Python would raise `ValueError`.  (Non-ASCII digits are outside the
model.) -/
def pyIntOfString (s : String) : Option Int :=
  let l := (s.toList.dropWhile isPyWs).reverse.dropWhile isPyWs |>.reverse
  match l with
  | [] => none
  | c :: rest =>
    if c = '-' then (pyIntStart [] rest).map (fun n => -(n : Int))
    else if c = '+' then (pyIntStart [] rest).map (fun n => (n : Int))
    else (pyIntStart [] (c :: rest)).map (fun n => (n : Int))

/-- Python's `int(key)` on the modelled JSON values: integers pass through,
booleans coerce to 0/1, strings parse as integer literals, `None` raises
(`none` here). -/
def pyInt : PyVal → Option Int
  | .vInt i => some i
  | .vBool b => some (if b then 1 else 0)
  | .vStr s => pyIntOfString s
  | .vNone => none

/-- Embedding of the `/key` handler (painel_adb.py:263-273): coerce the
body's `key` with `int(...)`; on failure raise
`HTTPException(400, "key must be an integer")` without spawning anything;
on success invoke
`_adb_cmd(["-s", ADB_DEVICE, "shell", "input", "keyevent", str(key_int)])`.
Returns the list of spawned command lines together with the response. -/
def keyEvent (st : PanelState) (key : PyVal) (oracle : List String → ProcOutcome) :
    List (List String) × Resp CmdResult :=
  match pyInt key with
  | none => ([], .httpError 400 "key must be an integer")
  | some k =>
    let args := ["-s", st.adb_device, "shell", "input", "keyevent", toString k]
    ([adbCmdLine args], .ok (adbCmd (oracle args)))

/-- Trace of one cycle of `adb_autoreconnect_loop`: the command lines it
spawned and the sleeps it performed, in order (milliseconds). -/
structure ReconnectCycle where
  calls : List (List String)
  sleeps : List Nat
deriving DecidableEq, Repr

/-- Embedding of one iteration of `adb_autoreconnect_loop`
(painel_adb.py:69-80): run `_adb_cmd(["devices"])`; if `ADB_DEVICE not in
out`, run `_adb_cmd(["connect", ADB_DEVICE])` and `await asyncio.sleep(2)`;
finally `await asyncio.sleep(5)`.  `dev` is the value of the global
`ADB_DEVICE` read at this iteration; `oracle` resolves each spawned
command.  `_adb_cmd` never raises, so the `except Exception: pass` guard is
unreachable for invocation failures and the cycle always completes. -/
def reconnectCycle (dev : String) (oracle : List String → ProcOutcome) : ReconnectCycle :=
  let r := adbCmd (oracle ["devices"])
  if strIn dev r.out then
    { calls := [adbCmdLine ["devices"]], sleeps := [5000] }
  else
    { calls := [adbCmdLine ["devices"], adbCmdLine ["connect", dev]],
      sleeps := [2000, 5000] }

/-- Finite prefix of the infinite `while True:` reconnect loop: one entry
per cycle, pairing the global state read at that cycle with that cycle's
invocation oracle.  The loop body has no `break`/`return`, so every cycle
of any prefix completes and is followed by the next. -/
def reconnectRun : List (PanelState × (List String → ProcOutcome)) → List ReconnectCycle
  | [] => []
  | it :: rest => reconnectCycle it.1.adb_device it.2 :: reconnectRun rest

/-- The command line spawned by `grab()` inside `screencap_generator`
(painel_adb.py:306): `["adb", "-s", ADB_DEVICE, "exec-out", "screencap",
"-p"]`, run directly (not through `_adb_cmd`). -/
def screencapCmd (dev : String) : List String :=
  ["adb", "-s", dev, "exec-out", "screencap", "-p"]

/-- The `data` bytes `grab()` hands back: the child's stdout on completion;
`b""` when `subprocess.run` raised (timeout, missing executable, …), since
`grab` catches every exception and returns `(b"", str(e).encode())`. -/
def grabData : ProcOutcome → List Nat
  | .completed o _ _ => o
  | _ => []

/-- The generator's boundary marker (painel_adb.py:301). -/
def boundary : String := "--frame"

/-- The frame chunk yielded for captured bytes `data`
(painel_adb.py:317-318): the UTF-8 encoding of
`f"{boundary}\r\nContent-Type: image/png\r\nContent-Length: {len(data)}\r\n\r\n"`
followed by `data` and `b"\r\n"`. -/
def frameBytes (data : List Nat) : List Nat :=
  utf8Encode (boundary ++ "\x0d\n" ++ "Content-Type: image/png" ++ "\x0d\n" ++
      "Content-Length: " ++ toString data.length ++ "\x0d\n\x0d\n") ++
    data ++ [13, 10]

/-- Observable events of the frame stream: a chunk yielded to the HTTP
response, or an `asyncio.sleep` (milliseconds). -/
inductive StreamEvent where
  | yieldChunk (bytes : List Nat)
  | sleepMs (ms : Nat)
deriving DecidableEq, Repr

/-- Embedding of one iteration of `screencap_generator`
(painel_adb.py:302-319): spawn the screencap command for the current
`ADB_DEVICE`; `if not data:` sleep 0.4 s and continue (yield nothing);
otherwise yield the framed chunk and sleep 0.18 s.  Returns the spawned
command line and the events of the iteration. -/
def screencapStep (dev : String) (o : ProcOutcome) : List String × List StreamEvent :=
  let data := grabData o
  if data.isEmpty then (screencapCmd dev, [.sleepMs 400])
  else (screencapCmd dev, [.yieldChunk (frameBytes data), .sleepMs 180])

/-- Finite prefix of the infinite generator loop: one entry per iteration,
pairing the `ADB_DEVICE` value read at that iteration with the capture
outcome.  The loop body never breaks or returns, so every iteration of any
prefix completes and is followed by the next. -/
def screencapRun : List (String × ProcOutcome) → List (List String × List StreamEvent)
  | [] => []
  | it :: rest => screencapStep it.1 it.2 :: screencapRun rest

/-- All stream events of a generator trace, in order. -/
def streamEvents (tr : List (List String × List StreamEvent)) : List StreamEvent :=
  (tr.map Prod.snd).flatten

/-- The chunks actually yielded to the client, in order. -/
def emittedFrames (tr : List (List String × List StreamEvent)) : List (List Nat) :=
  (streamEvents tr).filterMap fun e =>
    match e with
    | .yieldChunk bs => some bs
    | .sleepMs _ => none

/-- States reachable by the panel: the initial state for any environment,
closed under arbitrary `/set_ip` requests (including rejected ones, which
leave the state unchanged). -/
inductive Reachable : PanelState → Prop
  | init (env : Option String) : Reachable (initState env)
  | set (st : PanelState) (body : Option String) :
      Reachable st → Reachable (setIp st body).1

/-- Unrolling lemma: a finite prefix of the reconnect loop is exactly one
`reconnectCycle` per iteration, each reading that iteration's state. -/
theorem reconnectRun_eq_map (iters : List (PanelState × (List String → ProcOutcome))) :
    reconnectRun iters = iters.map fun it => reconnectCycle it.1.adb_device it.2 := by
  induction iters with
  | nil => rfl
  | cons it rest ih => simp [reconnectRun, ih]

theorem reconnectRun_append (a b : List (PanelState × (List String → ProcOutcome))) :
    reconnectRun (a ++ b) = reconnectRun a ++ reconnectRun b := by
  simp [reconnectRun_eq_map]

theorem screencapRun_eq_map (iters : List (String × ProcOutcome)) :
    screencapRun iters = iters.map fun it => screencapStep it.1 it.2 := by
  induction iters with
  | nil => rfl
  | cons it rest ih => simp [screencapRun, ih]

theorem screencapRun_append (a b : List (String × ProcOutcome)) :
    screencapRun (a ++ b) = screencapRun a ++ screencapRun b := by
  simp [screencapRun_eq_map]

theorem utf8Encode_append (a b : String) :
    utf8Encode (a ++ b) = utf8Encode a ++ utf8Encode b := by
  simp [utf8Encode, String.toList, String.data_append]

/-- A successful `/set_ip` replaces both globals together. -/
theorem setIp_some_ne (st : PanelState) (s : String) (h : s ≠ "") :
    setIp st (some s) =
      ({ tv_ip := s, adb_device := s ++ ":5555" }, .ok (s, s ++ ":5555")) := by
  simp [setIp, h]

/-- Invariant: at every reachable state the device selector is the current
host followed by `":5555"`. -/
theorem reachable_invariant (st : PanelState) (h : Reachable st) :
    st.adb_device = st.tv_ip ++ ":5555" := by
  induction h with
  | init env => rfl
  | set st' body _ ih =>
    match body with
    | none => exact ih
    | some s =>
      by_cases hs : s = ""
      · simpa [setIp, hs] using ih
      · simp [setIp, hs]

/-- A nonempty needle is never a substring of the empty string. -/
theorem strIn_empty (s : String) (h : s ≠ "") : strIn s "" = false := by
  obtain ⟨l⟩ := s
  match l with
  | [] => exact absurd rfl h
  | c :: t => rfl

/-- When every token is `some`, replacing error tokens and dropping error
tokens agree. -/
theorem map_getD_eq_filterMap (l : List (Option Char)) (h : l.all Option.isSome = true) :
    l.map (fun o => o.getD replChar) = l.filterMap id := by
  induction l with
  | nil => rfl
  | cons o rest ih =>
    simp only [List.all_cons, Bool.and_eq_true] at h
    match o with
    | some c => simp [ih h.2]
    | none => simp at h

/-- Both branches of a generator iteration spawn the same screencap
command for the device read at that iteration. -/
theorem screencapStep_fst (dev : String) (o : ProcOutcome) :
    (screencapStep dev o).1 = screencapCmd dev := by
  unfold screencapStep
  by_cases hd : (grabData o).isEmpty <;> simp [hd]

/-- Claim C1: the Frame-Stream generator, fed alternating (failure, success,
failure, success) capture results, emits exactly the two successful frames
and nothing for the failures; each emitted frame is the `--frame` boundary,
a `Content-Type: image/png` header and a `Content-Length` header equal to
the byte length of the image data, followed by those bytes; no capture
failure terminates the stream (after a failure the generator sleeps 0.4 s
and retries, after a success it sleeps 0.18 s). -/
theorem screencap_stream_alternating (dev : String) (f1 s1 f2 s2 : ProcOutcome)
    (hf1 : grabData f1 = []) (hf2 : grabData f2 = [])
    (hs1 : grabData s1 ≠ []) (hs2 : grabData s2 ≠ []) :
    streamEvents (screencapRun [(dev, f1), (dev, s1), (dev, f2), (dev, s2)]) =
      [.sleepMs 400, .yieldChunk (frameBytes (grabData s1)), .sleepMs 180,
        .sleepMs 400, .yieldChunk (frameBytes (grabData s2)), .sleepMs 180]
    ∧ emittedFrames (screencapRun [(dev, f1), (dev, s1), (dev, f2), (dev, s2)]) =
        [frameBytes (grabData s1), frameBytes (grabData s2)]
    ∧ (∀ d : List Nat,
        frameBytes d =
          utf8Encode boundary ++ utf8Encode "\x0d\n" ++
            utf8Encode "Content-Type: image/png" ++ utf8Encode "\x0d\n" ++
            utf8Encode "Content-Length: " ++ utf8Encode (toString d.length) ++
            utf8Encode "\x0d\n\x0d\n" ++ d ++ [13, 10])
    ∧ (∀ (devR : String) (oR : ProcOutcome) (rest : List (String × ProcOutcome)),
        grabData oR = [] →
          screencapRun ((devR, oR) :: rest) =
            (screencapCmd devR, [.sleepMs 400]) :: screencapRun rest)
    ∧ (∀ (devR : String) (oR : ProcOutcome) (rest : List (String × ProcOutcome)),
        grabData oR ≠ [] →
          screencapRun ((devR, oR) :: rest) =
            (screencapCmd devR,
              [.yieldChunk (frameBytes (grabData oR)), .sleepMs 180]) ::
              screencapRun rest) := by
  have hs1e : (grabData s1).isEmpty = false := by
    cases hgd : grabData s1
    · exact absurd hgd hs1
    · rfl
  have hs2e : (grabData s2).isEmpty = false := by
    cases hgd : grabData s2
    · exact absurd hgd hs2
    · rfl
  refine ⟨?_, ?_, ?_, ?_, ?_⟩
  · simp [screencapRun, screencapStep, streamEvents, hf1, hf2, hs1e, hs2e]
  · simp [screencapRun, screencapStep, streamEvents, emittedFrames, hf1, hf2, hs1e, hs2e]
  · intro d
    simp [frameBytes, utf8Encode_append, List.append_assoc]
  · intro devR oR rest h
    simp [screencapRun, screencapStep, h]
  · intro devR oR rest h
    have he : (grabData oR).isEmpty = false := by
      cases hgd : grabData oR
      · exact absurd hgd h
      · rfl
    simp [screencapRun, screencapStep, he]

theorem screencap_stream_alternating_witness :
    emittedFrames (screencapRun
        [("10.0.110.253:5555", ProcOutcome.timedOut),
          ("10.0.110.253:5555", ProcOutcome.completed [137, 80] [] 0),
          ("10.0.110.253:5555", ProcOutcome.completed [] [] 1),
          ("10.0.110.253:5555", ProcOutcome.completed [9] [] 0)]) =
      [frameBytes [137, 80], frameBytes [9]] :=
  (screencap_stream_alternating "10.0.110.253:5555" ProcOutcome.timedOut
    (ProcOutcome.completed [137, 80] [] 0) (ProcOutcome.completed [] [] 1)
    (ProcOutcome.completed [9] [] 0) rfl rfl (by decide) (by decide)).2.1

/-- Claim C2: the Auto-Reconnect loop never terminates: every finite prefix
runs exactly one complete cycle per iteration; every cycle first calls
`adb devices`, issues `adb connect <dev>` exactly when the live target is
absent from the devices stdout, and completes regardless of invocation
failures (the embedded `_adb_cmd` returns sentinel results instead of
raising); in particular an Invoker that times out on every call yields a
connect attempt on every cycle. -/
theorem reconnect_loop_total (iters : List (PanelState × (List String → ProcOutcome)))
    (dev : String) (oracle : List String → ProcOutcome) :
    (reconnectRun iters).length = iters.length
    ∧ reconnectRun iters = (iters.map fun it => reconnectCycle it.1.adb_device it.2)
    ∧ (reconnectCycle dev oracle).calls.head? = some ["adb", "devices"]
    ∧ (strIn dev (adbCmd (oracle ["devices"])).out = false →
        (reconnectCycle dev oracle).calls =
          [["adb", "devices"], ["adb", "connect", dev]])
    ∧ (strIn dev (adbCmd (oracle ["devices"])).out = true →
        (reconnectCycle dev oracle).calls = [["adb", "devices"]])
    ∧ (dev ≠ "" →
        (reconnectCycle dev timeoutOracle).calls =
          [["adb", "devices"], ["adb", "connect", dev]]) := by
  refine ⟨by rw [reconnectRun_eq_map]; simp, reconnectRun_eq_map iters, ?_, ?_, ?_, ?_⟩
  · unfold reconnectCycle
    by_cases h : strIn dev (adbCmd (oracle ["devices"])).out <;> simp [h, adbCmdLine]
  · intro h
    simp [reconnectCycle, adbCmdLine, h]
  · intro h
    simp [reconnectCycle, adbCmdLine, h]
  · intro h
    have : strIn dev (adbCmd (timeoutOracle ["devices"])).out = false := strIn_empty dev h
    simp [reconnectCycle, adbCmdLine, this]

theorem reconnect_loop_total_witness :
    (reconnectCycle "10.0.110.253:5555" timeoutOracle).calls =
      [["adb", "devices"], ["adb", "connect", "10.0.110.253:5555"]] :=
  (reconnect_loop_total [] "10.0.110.253:5555" timeoutOracle).2.2.2.2.2 (by decide)

/-- Claim C3 counterexample: on a cycle whose devices check does not show
the target (e.g. every invocation times out), the loop sleeps 2 s after the
connect attempt and then the 5 s poll sleep — 7 s in total, not the claimed
fixed ~5 s independent of whether a connect attempt was required. -/
theorem reconnect_interval_cex :
    (reconnectCycle "10.0.110.253:5555" timeoutOracle).sleeps = [2000, 5000]
    ∧ (reconnectCycle "10.0.110.253:5555" timeoutOracle).sleeps.sum = 7000
    ∧ (7000 : Nat) ≠ 5000 := by decide

/-- Claim C3 (amended): every cycle ends with the fixed 5 s poll sleep, but
a cycle that issued a connect attempt additionally sleeps 2 s first, so the
delay between consecutive cycles is ~5 s when the target was present and
~7 s when a connect attempt was required. -/
theorem reconnect_interval_amended (dev : String) (oracle : List String → ProcOutcome) :
    (strIn dev (adbCmd (oracle ["devices"])).out = true →
      (reconnectCycle dev oracle).sleeps = [5000])
    ∧ (strIn dev (adbCmd (oracle ["devices"])).out = false →
      (reconnectCycle dev oracle).sleeps = [2000, 5000])
    ∧ (reconnectCycle dev oracle).sleeps.getLast? = some 5000 := by
  refine ⟨fun h => by simp [reconnectCycle, h], fun h => by simp [reconnectCycle, h], ?_⟩
  unfold reconnectCycle
  by_cases h : strIn dev (adbCmd (oracle ["devices"])).out <;> simp [h]

theorem reconnect_interval_amended_witness :
    (reconnectCycle "10.0.110.253:5555" timeoutOracle).sleeps = [2000, 5000] :=
  (reconnect_interval_amended "10.0.110.253:5555" timeoutOracle).2.1 (by decide)

/-- Claim C4: after a successful `set_target h`, every subsequent operation
addresses `h:5555`: the selector is replaced, `/connect` and `/key` build
their command lines from it, the next screencap capture spawns with it, and
both supervisors — which read the live state on each iteration — check for
and connect to `h:5555` on their next cycle, even when appended to an
already-running trace. -/
theorem set_target_live (st st' : PanelState) (h : String) (hne : h ≠ "")
    (hset : st' = (setIp st (some h)).1) (k : Int)
    (oracle : List String → ProcOutcome) (o : ProcOutcome)
    (prev : List (PanelState × (List String → ProcOutcome)))
    (past : List (String × ProcOutcome)) :
    st'.adb_device = h ++ ":5555"
    ∧ connectCmd st' = ["adb", "connect", h ++ ":5555"]
    ∧ (keyEvent st' (.vInt k) oracle).1 =
        [["adb", "-s", h ++ ":5555", "shell", "input", "keyevent", toString k]]
    ∧ (screencapStep st'.adb_device o).1 =
        ["adb", "-s", h ++ ":5555", "exec-out", "screencap", "-p"]
    ∧ reconnectRun (prev ++ [(st', oracle)]) =
        reconnectRun prev ++ [reconnectCycle (h ++ ":5555") oracle]
    ∧ (strIn (h ++ ":5555") (adbCmd (oracle ["devices"])).out = false →
        (reconnectCycle st'.adb_device oracle).calls =
          [["adb", "devices"], ["adb", "connect", h ++ ":5555"]])
    ∧ screencapRun (past ++ [(st'.adb_device, o)]) =
        screencapRun past ++ [screencapStep (h ++ ":5555") o] := by
  have hst' : st' = { tv_ip := h, adb_device := h ++ ":5555" } := by
    rw [hset, setIp_some_ne st h hne]
  subst hst'
  refine ⟨rfl, rfl, ?_, ?_, ?_, ?_, ?_⟩
  · simp [keyEvent, pyInt, adbCmdLine]
  · rw [screencapStep_fst]; rfl
  · rw [reconnectRun_append]; rfl
  · intro hab
    simp [reconnectCycle, adbCmdLine, hab]
  · rw [screencapRun_append]; rfl

theorem set_target_live_witness :
    ((setIp (initState none) (some "1.2.3.4")).1).adb_device = "1.2.3.4" ++ ":5555"
    ∧ (keyEvent ((setIp (initState none) (some "1.2.3.4")).1) (.vInt 3) timeoutOracle).1 =
        [["adb", "-s", "1.2.3.4" ++ ":5555", "shell", "input", "keyevent", toString (3 : Int)]] := by
  have H := set_target_live (initState none) _ "1.2.3.4" (by decide) rfl 3
    timeoutOracle ProcOutcome.timedOut [] []
  exact ⟨H.1, H.2.2.1⟩

/-- Claim C5: for every integer key code `k` and reachable state (current
host `st.tv_ip`), `send_key` invokes the bridge executable with exactly the
arguments `["-s", host:5555, "shell", "input", "keyevent", toString k]`, in
that order, and returns the Invoker's result. -/
theorem send_key_args (st : PanelState) (hst : Reachable st) (k : Int)
    (oracle : List String → ProcOutcome) :
    keyEvent st (.vInt k) oracle =
      ([["adb", "-s", st.tv_ip ++ ":5555", "shell", "input", "keyevent", toString k]],
        .ok (adbCmd (oracle
          ["-s", st.tv_ip ++ ":5555", "shell", "input", "keyevent", toString k]))) := by
  have hdev := reachable_invariant st hst
  simp [keyEvent, pyInt, adbCmdLine, hdev]

theorem send_key_args_witness :
    keyEvent (initState none) (.vInt 3) timeoutOracle =
      ([["adb", "-s", "10.0.110.253:5555", "shell", "input", "keyevent", "3"]],
        .ok ⟨"", "timeout", 124⟩) :=
  (send_key_args (initState none) (Reachable.init none) 3 timeoutOracle).trans (by decide)

/-- Claim C6 counterexample: the not-found stderr is the literal
`"adb-not-found"`, which does not contain the space-separated phrase
`"not found"` as a substring. -/
theorem invoker_notfound_cex :
    (adbCmd ProcOutcome.notFound).err = "adb-not-found"
    ∧ strIn "not found" (adbCmd ProcOutcome.notFound).err = false := by decide

/-- Claim C6 (amended): on timeout the Invoker returns empty stdout, exit
sentinel 124 and stderr carrying `"timeout"`; when the executable is
missing it returns exit sentinel 127 and stderr carrying `"not-found"`
(hyphenated: the literal value is `"adb-not-found"`); in neither case does
it raise — both are ordinary return values of the total `adbCmd`. -/
theorem invoker_failure_sentinels :
    (adbCmd ProcOutcome.timedOut = ⟨"", "timeout", 124⟩
      ∧ strIn "timeout" (adbCmd ProcOutcome.timedOut).err = true)
    ∧ (adbCmd ProcOutcome.notFound = ⟨"", "adb-not-found", 127⟩
      ∧ strIn "not-found" (adbCmd ProcOutcome.notFound).err = true) := by decide

/-- Claim C7 counterexample: for stdout consisting of the single invalid
byte `0xFF`, the Invoker produces `""` — the invalid byte is dropped
(`errors="ignore"`), not replaced by `U+FFFD` as the claim's replacement
semantics (`utf8DecodeReplace`) would produce. -/
theorem invoker_decode_cex :
    adbCmd (ProcOutcome.completed [255] [] 0) = ⟨"", "", 0⟩
    ∧ String.mk (utf8DecodeReplace [255]) = "�"
    ∧ (adbCmd (ProcOutcome.completed [255] [] 0)).out ≠
        String.mk (utf8DecodeReplace [255]) := by decide

/-- Claim C7 (amended): on normal exit the Invoker returns the real exit
status and stdout/stderr decoded permissively with invalid byte sequences
dropped (`errors="ignore"`), so decoding is total and never fails; on valid
UTF-8 output this agrees with exact (strict) decoding — and with what
replacement decoding would give. -/
theorem invoker_normal_exit (o e : List Nat) (rc : Int) :
    adbCmd (.completed o e rc) =
      ⟨String.mk (utf8DecodeIgnore o), String.mk (utf8DecodeIgnore e), rc⟩
    ∧ (∀ bs cs, utf8DecodeStrict bs = some cs →
        utf8DecodeIgnore bs = cs ∧ utf8DecodeReplace bs = cs) := by
  refine ⟨rfl, fun bs cs hbs => ?_⟩
  unfold utf8DecodeStrict at hbs
  split at hbs
  · next hall =>
    cases hbs
    exact ⟨rfl, map_getD_eq_filterMap _ hall⟩
  · cases hbs

theorem invoker_normal_exit_witness :
    adbCmd (ProcOutcome.completed [104, 105] [255] 0) = ⟨"hi", "", 0⟩
    ∧ utf8DecodeStrict [104, 105] = some ['h', 'i']
    ∧ utf8DecodeIgnore [104, 105] = ['h', 'i'] := by
  have H := invoker_normal_exit [104, 105] [255] 0
  exact ⟨H.1.trans (by decide), by decide,
    (H.2 [104, 105] ['h', 'i'] (by decide)).1⟩

/-- Claim C8: `set_ip` with an empty (or missing) host answers
`HTTPException 400 "ip required"` and leaves the stored target unchanged:
the state returned is the pre-call state, so the next read of `TV_IP` or
`ADB_DEVICE` sees the old values. -/
theorem set_ip_empty_rejected (st : PanelState) :
    setIp st (some "") = (st, .httpError 400 "ip required")
    ∧ setIp st none = (st, .httpError 400 "ip required")
    ∧ (setIp st (some "")).1.tv_ip = st.tv_ip
    ∧ (setIp st (some "")).1.adb_device = st.adb_device := by
  refine ⟨by simp [setIp], rfl, by simp [setIp], by simp [setIp]⟩

/-- Claim C9 counterexample: the non-integer JSON string `"7"` is not
rejected: `int("7")` succeeds, the bridge is invoked with keyevent `7`, and
the response is not the 400 error the claim requires for every non-integer
input. -/
theorem send_key_validation_cex :
    keyEvent (initState none) (PyVal.vStr "7") timeoutOracle =
      ([["adb", "-s", "10.0.110.253:5555", "shell", "input", "keyevent", "7"]],
        .ok ⟨"", "timeout", 124⟩)
    ∧ ([["adb", "-s", "10.0.110.253:5555", "shell", "input", "keyevent", "7"]],
        (Resp.ok (⟨"", "timeout", 124⟩ : CmdResult))) ≠
      (([], .httpError 400 "key must be an integer") :
        List (List String) × Resp CmdResult) := by decide

/-- Claim C9 (amended): `send_key` coerces the supplied code with Python's
`int(...)`: it fails with a 400 `InvalidInput` response — without invoking
the bridge — exactly when the coercion fails (e.g. `None` or a non-numeric
string); values the coercion accepts (integers, booleans, strings spelling
an optionally-signed decimal integer) are coerced and the bridge is
invoked with the coerced value. -/
theorem send_key_validation_amended (st : PanelState) (key : PyVal)
    (oracle : List String → ProcOutcome) :
    (pyInt key = none →
      keyEvent st key oracle = ([], .httpError 400 "key must be an integer"))
    ∧ (∀ k, pyInt key = some k →
        keyEvent st key oracle =
          ([["adb", "-s", st.adb_device, "shell", "input", "keyevent", toString k]],
            .ok (adbCmd (oracle
              ["-s", st.adb_device, "shell", "input", "keyevent", toString k])))) := by
  constructor
  · intro h
    simp [keyEvent, h]
  · intro k h
    simp [keyEvent, h, adbCmdLine]

theorem send_key_validation_amended_witness :
    keyEvent (initState none) PyVal.vNone timeoutOracle =
      ([], .httpError 400 "key must be an integer") :=
  (send_key_validation_amended (initState none) PyVal.vNone timeoutOracle).1 rfl

/-- Claim C10: at every reachable state — after initialisation from the
`TV_IP` environment default and after any sequence of `set_ip` requests —
the stored selector equals the stored host concatenated with `":5555"`,
and every successful `set_ip` replaces host and selector together as one
whole-value update. -/
theorem target_selector_invariant :
    (∀ st, Reachable st → st.adb_device = st.tv_ip ++ ":5555")
    ∧ (∀ env, initState env =
        { tv_ip := env.getD "10.0.110.253",
          adb_device := (env.getD "10.0.110.253") ++ ":5555" })
    ∧ (∀ st s, s ≠ "" → (setIp st (some s)).1 =
        { tv_ip := s, adb_device := s ++ ":5555" }) := by
  refine ⟨reachable_invariant, fun env => rfl, fun st s h => ?_⟩
  rw [setIp_some_ne st s h]

theorem target_selector_invariant_witness :
    (initState none).adb_device = (initState none).tv_ip ++ ":5555"
    ∧ (setIp (initState none) (some "1.2.3.4")).1 =
        { tv_ip := "1.2.3.4", adb_device := "1.2.3.4:5555" } := by
  refine ⟨target_selector_invariant.1 _ (Reachable.init none),
    (target_selector_invariant.2.2 _ "1.2.3.4" (by decide)).trans (by decide)⟩
